import Mathlib

/-!
Verification of the analytics fallback-and-caching engine of
`src/utils/aiAnalytics.ts` (class `AIAnalyticsService`).

Shallow embedding conventions:
* JS numbers are modeled as `ℚ`.  Every division performed by the fallback
  model clamps its denominator with `Math.max(1, _)`, so those divisions stay
  finite and are modeled with `ℚ` division directly.  The single division
  whose denominator is *not* clamped (`currentStock / avgDailySales` in
  `getStockRecommendation`) is modeled with `JNum`, which represents the
  JS values `Infinity` / `-Infinity` / `NaN` explicitly.
* `Date.now()` and `new Date().getMonth()` are passed as explicit
  parameters (`now : ℕ` in milliseconds, `month : ℕ`).
* The in-memory rate-limit `Map` and the JSON cache file are modeled as
  functions from keys to optional values, threaded explicitly.
* The SHA-256 cache digest is modeled by the pair (prefix, serialized
  input) itself: a deterministic, injective stand-in for the digest.
* `JSON.parse`, the Gemini call and the regex helpers `extractNumber` /
  `extractFactors` are external collaborators (runtime library / network);
  they are taken as opaque function parameters.
-/

namespace AIAnalytics

/-- JS number extended with the non-finite values that division by zero
produces (`x/0 = Infinity` for `x > 0`, `-Infinity` for `x < 0`,
`0/0 = NaN`). -/
inductive JNum where
  | nan
  | inf
  | ninf
  | num (q : ℚ)
deriving DecidableEq

/-- JS division `a / b`, total, with the JS division-by-zero results. -/
def jsDivJ (a b : ℚ) : JNum :=
  if b = 0 then (if a = 0 then .nan else if 0 < a then .inf else .ninf)
  else .num (a / b)

/-- `Math.round` lifted to `JNum` (`Math.round(Infinity) = Infinity`,
`Math.round(NaN) = NaN`). -/
def jsRoundJ : JNum → JNum
  | .num q => .num ((⌊q + 1/2⌋ : ℤ) : ℚ)
  | x => x

/-- Whether a `JNum` is a finite number (not an Infinity/NaN artifact). -/
def jnumIsFinite : JNum → Bool
  | .num _ => true
  | _ => false

/-- JS `Math.round`: round half toward `+∞`, i.e. `⌊x + 0.5⌋`. -/
def jsRoundI (q : ℚ) : ℤ := ⌊q + 1/2⌋

/-- JS `Math.round` as a rational (rounded values are re-used as numbers). -/
def jsRound (q : ℚ) : ℚ := ((jsRoundI q : ℤ) : ℚ)

/-- Rendering of a finite JS number inside a template literal.  The exact
decimal formatting of the JS runtime is immaterial to every claim; what
matters is that finite numbers never render as "Infinity"/"NaN". -/
def numToString (q : ℚ) : String :=
  toString q.num ++ (if q.den = 1 then "" else "/" ++ toString q.den)

/-- Rendering of a `JNum` inside a template literal: JS prints the
literal words `Infinity`, `-Infinity`, `NaN` for the non-finite values. -/
def jnumToString : JNum → String
  | .nan => "NaN"
  | .inf => "Infinity"
  | .ninf => "-Infinity"
  | .num q => numToString q

/-- `Number.prototype.toFixed(1)` for the nonnegative averages produced by
the fallback model. -/
def toFixed1 (q : ℚ) : String :=
  let n : ℤ := ⌊q * 10 + 1/2⌋
  toString (n / 10) ++ "." ++ toString (n % 10)

/-- Whether `pat` occurs at the head of `s` (character lists). -/
def charsStartWith : List Char → List Char → Bool
  | _, [] => true
  | [], _ :: _ => false
  | c :: cs, p :: ps => c = p && charsStartWith cs ps

/-- Whether `pat` occurs anywhere in `s` (character lists). -/
def charsContain : List Char → List Char → Bool
  | [], pat => pat.isEmpty
  | c :: rest, pat => charsStartWith (c :: rest) pat || charsContain rest pat

/-- JS `s.includes(pat)`. -/
def strIncludes (s pat : String) : Bool := charsContain s.data pat.data

/-- JS `s.toLowerCase()`. -/
def jsToLower (s : String) : String := String.mk (s.data.map Char.toLower)

/-- JS `arr.slice(-n)`: the last `n` elements (all of them when the array
is shorter than `n`). -/
def sliceLast (n : ℕ) (l : List α) : List α := l.drop (l.length - n)

/-- `interface SalesData` (fields as in the source; optional fields are
`Option`s, read back with `x || 0`). -/
structure SalesData where
  date : String
  product_id : Option String := none
  product_name : Option String := none
  quantity : Option ℚ := none
  revenue : Option ℚ := none
  category : Option String := none
deriving DecidableEq

/-- `interface InventoryData`. -/
structure InventoryData where
  product_id : Option String := none
  product_name : Option String := none
  current_stock : Option ℚ := none
  reorder_level : Option ℚ := none
  category : Option String := none
  timestamp : Option String := none
deriving DecidableEq

/-- The stock-status enum of `AnalyticsResult.stockLevels.status`. -/
inductive StockStatus where
  | optimal
  | low
  | critical
  | overstocked
deriving DecidableEq

/-- The trend enum of `AnalyticsResult.salesVolume.trend`. -/
inductive Trend where
  | increasing
  | decreasing
  | stable
deriving DecidableEq

/-- The string the source stores for a trend value. -/
def trendToString : Trend → String
  | .increasing => "increasing"
  | .decreasing => "decreasing"
  | .stable => "stable"

/-- `AnalyticsResult.salesQuantity`. -/
structure SalesQuantityResult where
  prediction : ℚ
  confidence : ℚ
  factors : List String
deriving DecidableEq

/-- `AnalyticsResult.stockLevels`. -/
structure StockLevelsResult where
  prediction : ℚ
  status : StockStatus
  recommendation : String
deriving DecidableEq

/-- `AnalyticsResult.stockoutRisk`. -/
structure StockoutRiskResult where
  probability : ℚ
  timeline : String
  preventionActions : List String
deriving DecidableEq

/-- `AnalyticsResult.salesVolume`. -/
structure SalesVolumeResult where
  prediction : ℚ
  trend : Trend
  seasonalFactors : List String
deriving DecidableEq

/-- `AnalyticsResult.accuracy`. -/
structure AccuracyResult where
  salesModel : ℚ
  inventoryModel : ℚ
  overallAccuracy : ℚ
deriving DecidableEq

/-- `interface AnalyticsResult`. -/
structure AnalyticsResult where
  salesQuantity : SalesQuantityResult
  stockLevels : StockLevelsResult
  stockoutRisk : StockoutRiskResult
  salesVolume : SalesVolumeResult
  accuracy : AccuracyResult
deriving DecidableEq

/-! ## Rate limiter (`checkRateLimit`, lines 116–132) -/

/-- `RATE_LIMIT_CONFIG.requestWindow` = 1 hour in milliseconds. -/
def requestWindow : ℕ := 60 * 60 * 1000

/-- `RATE_LIMIT_CONFIG.maxRequestsPerHour`. -/
def maxRequestsPerHour : ℕ := 45

/-- One entry of the in-memory `rateLimitStore` map. -/
structure RateWindow where
  count : ℕ
  resetTime : ℕ
deriving DecidableEq

/-- The `rateLimitStore : Map<string, {count, resetTime}>`, modeled as a
function from bucket keys to optional windows. -/
abbrev Store := String → Option RateWindow

/-- The store before any call. -/
def emptyStore : Store := fun _ => none

/-- `rateLimitStore.set(key, w)`. -/
def storeSet (s : Store) (key : String) (w : RateWindow) : Store :=
  fun k => if k = key then some w else s k

/-- `checkRateLimit(key)` with the clock `Date.now()` passed explicitly;
returns the admit decision and the updated store. -/
def checkRateLimit (now : ℕ) (key : String) (s : Store) : Bool × Store :=
  match s key with
  | none => (true, storeSet s key ⟨1, now + requestWindow⟩)
  | some record =>
    if now > record.resetTime then
      (true, storeSet s key ⟨1, now + requestWindow⟩)
    else if record.count ≥ maxRequestsPerHour then
      (false, s)
    else
      (true, storeSet s key ⟨record.count + 1, record.resetTime⟩)

/-- A sequence of `checkRateLimit` calls on one key at the given times,
collecting the returned booleans and the final store. -/
def runChecks (key : String) : List ℕ → Store → List Bool × Store
  | [], s => ([], s)
  | t :: ts, s =>
    let c := checkRateLimit t key s
    let rest := runChecks key ts c.2
    (c.1 :: rest.1, rest.2)

/-- A sequence of `checkRateLimit` calls at arbitrary times and keys,
keeping only the final store (for reachability statements). -/
def runRate : List (ℕ × String) → Store → Store
  | [], s => s
  | (t, k) :: cs, s => runRate cs (checkRateLimit t k s).2

/-! ## Retry with backoff (`retryWithBackoff`, lines 137–155) -/

/-- A thrown JS error: either one carrying an HTTP `status` field (the
Gemini client attaches `status: 429` when rate limited) or a plain
`new Error(message)`. -/
inductive JsError where
  | httpStatus (code : ℕ)
  | message (msg : String)
deriving DecidableEq

/-- The `error.status === 429` test of the catch block (`undefined === 429`
is false for errors without a status). -/
def isRateLimited : JsError → Bool
  | .httpStatus code => code = 429
  | .message _ => false

/-- `RATE_LIMIT_CONFIG.retryDelay` (milliseconds). -/
def retryDelay : ℕ := 30000

deriving instance DecidableEq for Except

/-- Observable trace of one `retryWithBackoff` run: the final outcome, how
many times the wrapped operation was invoked, and the sleeps performed (in
order, milliseconds). -/
structure RetryTrace (α : Type) where
  outcome : Except JsError α
  calls : ℕ
  delays : List ℕ
deriving DecidableEq

/-- The `for (let attempt = 0; attempt <= maxRetries; attempt++)` loop.
The operation is a stub mapping the attempt index to that invocation's
outcome.  The last argument is the number of loop iterations left
(`maxRetries + 1 - attempt`), which makes the recursion structural; the
`attempt < maxRetries` branch condition is kept verbatim.  Falling out of
the loop hits `throw new Error('Max retries exceeded')`. -/
def retryLoop (op : ℕ → Except JsError α) (maxRetries : ℕ) :
    ℕ → ℕ → RetryTrace α
  | _, 0 => ⟨.error (.message "Max retries exceeded"), 0, []⟩
  | attempt, rem + 1 =>
    match op attempt with
    | .ok v => ⟨.ok v, 1, []⟩
    | .error e =>
      if isRateLimited e = true ∧ attempt < maxRetries then
        let d := min (retryDelay * 2 ^ attempt) 60000
        let rest := retryLoop op maxRetries (attempt + 1) rem
        ⟨rest.outcome, rest.calls + 1, d :: rest.delays⟩
      else
        ⟨.error e, 1, []⟩

/-- `retryWithBackoff(operation, maxRetries = 3)`. -/
def retryWithBackoff (op : ℕ → Except JsError α) (maxRetries : ℕ := 3) :
    RetryTrace α :=
  retryLoop op maxRetries 0 (maxRetries + 1)

/-! ## Statistical fallback model (`generateFallbackAnalytics`,
lines 160–224, and its helpers, lines 485–530) -/

/-- `salesData.slice(-7)` — the last 7 records. -/
def recentSalesOf (salesData : List SalesData) : List SalesData :=
  sliceLast 7 salesData

/-- `avgDailySales`: mean quantity over the last-7 window, denominator
clamped by `Math.max(1, recentSales.length)`. -/
def avgDailySalesOf (salesData : List SalesData) : ℚ :=
  ((recentSalesOf salesData).map (fun s => s.quantity.getD 0)).sum /
    max 1 ((recentSalesOf salesData).length : ℚ)

/-- `totalRevenue` over the last-7 window. -/
def totalRevenueOf (salesData : List SalesData) : ℚ :=
  ((recentSalesOf salesData).map (fun s => s.revenue.getD 0)).sum

/-- `currentStock`: total stock over all inventory records. -/
def currentStockOf (inventoryData : List InventoryData) : ℚ :=
  (inventoryData.map (fun i => i.current_stock.getD 0)).sum

/-- `avgReorderLevel`, denominator clamped by
`Math.max(1, inventoryData.length)`. -/
def avgReorderLevelOf (inventoryData : List InventoryData) : ℚ :=
  (inventoryData.map (fun i => i.reorder_level.getD 0)).sum /
    max 1 (inventoryData.length : ℚ)

/-- `recentSales.slice(0, Math.floor(recentSales.length / 2))`. -/
def firstHalfOf (salesData : List SalesData) : List SalesData :=
  (recentSalesOf salesData).take ((recentSalesOf salesData).length / 2)

/-- `recentSales.slice(Math.floor(recentSales.length / 2))`. -/
def secondHalfOf (salesData : List SalesData) : List SalesData :=
  (recentSalesOf salesData).drop ((recentSalesOf salesData).length / 2)

/-- Mean quantity of the first half, denominator clamped. -/
def firstHalfAvgOf (salesData : List SalesData) : ℚ :=
  ((firstHalfOf salesData).map (fun s => s.quantity.getD 0)).sum /
    max 1 ((firstHalfOf salesData).length : ℚ)

/-- Mean quantity of the second half, denominator clamped. -/
def secondHalfAvgOf (salesData : List SalesData) : ℚ :=
  ((secondHalfOf salesData).map (fun s => s.quantity.getD 0)).sum /
    max 1 ((secondHalfOf salesData).length : ℚ)

/-- `trendDirection`: `increasing` if the second half's mean exceeds
`1.1 ×` the first half's, `decreasing` if below `0.9 ×`, else `stable`. -/
def trendDirectionOf (salesData : List SalesData) : Trend :=
  if secondHalfAvgOf salesData > firstHalfAvgOf salesData * 1.1 then .increasing
  else if secondHalfAvgOf salesData < firstHalfAvgOf salesData * 0.9 then .decreasing
  else .stable

/-- `stockRatio = currentStock / Math.max(1, avgReorderLevel)`. -/
def stockRatioOf (inventoryData : List InventoryData) : ℚ :=
  currentStockOf inventoryData / max 1 (avgReorderLevelOf inventoryData)

/-- `stockStatus`: `critical` if the ratio is below 0.5, `low` below 1,
`overstocked` above 3, else `optimal`. -/
def stockStatusOf (inventoryData : List InventoryData) : StockStatus :=
  if stockRatioOf inventoryData < 0.5 then .critical
  else if stockRatioOf inventoryData < 1 then .low
  else if stockRatioOf inventoryData > 3 then .overstocked
  else .optimal

/-- `daysUntilStockout = Math.max(0, currentStock / Math.max(1, avgDailySales))`. -/
def daysUntilStockoutOf (salesData : List SalesData)
    (inventoryData : List InventoryData) : ℚ :=
  max 0 (currentStockOf inventoryData / max 1 (avgDailySalesOf salesData))

/-- `stockoutProbability` banding: `<7` days → 80, `<14` → 40, `<21` → 20,
else 10. -/
def stockoutProbabilityOf (salesData : List SalesData)
    (inventoryData : List InventoryData) : ℚ :=
  if daysUntilStockoutOf salesData inventoryData < 7 then 80
  else if daysUntilStockoutOf salesData inventoryData < 14 then 40
  else if daysUntilStockoutOf salesData inventoryData < 21 then 20
  else 10

/-- `getStockRecommendation(status, currentStock, avgDailySales)`
(lines 485–496).  The `overstocked` branch divides
`currentStock / avgDailySales` with no `Math.max(1, _)` clamp, so that
division is modeled with `jsDivJ`. -/
def getStockRecommendation (status : StockStatus)
    (currentStock avgDailySales : ℚ) : String :=
  match status with
  | .critical =>
    "Immediate restock required. Current stock: " ++ numToString currentStock ++
      ", Daily sales: " ++ toFixed1 avgDailySales
  | .low => "Plan to restock within 3-5 days. Monitor daily sales closely."
  | .overstocked =>
    "Consider reducing future orders. Stock level is " ++
      jnumToString (jsRoundJ (jsDivJ currentStock avgDailySales)) ++
      "x daily sales."
  | .optimal => "Maintain current inventory levels and monitor trends."

/-- `getPreventionActions(status, daysUntilStockout)` (lines 498–513); the
source never reads `status` in the body. -/
def getPreventionActions (_status : StockStatus) (daysUntilStockout : ℚ) :
    List String :=
  if daysUntilStockout < 7 then
    ["Place emergency order immediately",
     "Contact suppliers for expedited delivery"]
  else if daysUntilStockout < 14 then
    ["Schedule regular restock order", "Monitor sales velocity daily"]
  else
    ["Continue regular monitoring", "Review supplier lead times"]

/-- `getSeasonalFactors(date)` (lines 515–530), with `date.getMonth()`
(0-based) passed explicitly. -/
def getSeasonalFactors (month : ℕ) : List String :=
  (if month ≥ 10 ∨ month ≤ 1 then ["Holiday season demand increase"] else []) ++
  (if month ≥ 5 ∧ month ≤ 8 then ["Summer seasonal patterns"] else []) ++
  (if month ≥ 2 ∧ month ≤ 4 then ["Spring restocking period"] else [])

/-- `generateFallbackAnalytics(salesData, inventoryData)` (lines 160–224);
the calendar month of `new Date()` is passed explicitly. -/
def generateFallbackAnalytics (month : ℕ) (salesData : List SalesData)
    (inventoryData : List InventoryData) : AnalyticsResult :=
  let adsStr := toFixed1 (avgDailySalesOf salesData)
  let trendStr := trendToString (trendDirectionOf salesData)
  let consistency :=
    if firstHalfAvgOf salesData > 0 then "Good" else "Limited data"
  { salesQuantity :=
      { prediction := jsRound (avgDailySalesOf salesData * 7)
        confidence := 75
        factors :=
          ["Average daily sales: " ++ adsStr,
           "Recent trend: " ++ trendStr,
           "Historical consistency: " ++ consistency] }
    stockLevels :=
      { prediction := jsRound (avgReorderLevelOf inventoryData * 1.5)
        status := stockStatusOf inventoryData
        recommendation :=
          getStockRecommendation (stockStatusOf inventoryData)
            (currentStockOf inventoryData) (avgDailySalesOf salesData) }
    stockoutRisk :=
      { probability := stockoutProbabilityOf salesData inventoryData
        timeline :=
          toString (jsRoundI (daysUntilStockoutOf salesData inventoryData)) ++
            " days"
        preventionActions :=
          getPreventionActions (stockStatusOf inventoryData)
            (daysUntilStockoutOf salesData inventoryData) }
    salesVolume :=
      { prediction := jsRound (totalRevenueOf salesData * 1.1)
        trend := trendDirectionOf salesData
        seasonalFactors := getSeasonalFactors month }
    accuracy := { salesModel := 78, inventoryModel := 82, overallAccuracy := 80 } }

/-! ## Text-extraction helper `extractStatus` (lines 550–558) -/

/-- The fixed status vocabulary scanned by `extractStatus`, in source
order. -/
def statusVocabulary : List String :=
  ["optimal", "low", "critical", "overstocked"]

/-- `extractStatus(text)`: the first status whose name occurs in the
lowercased text, defaulting to `"optimal"`. -/
def extractStatus (text : String) : String :=
  match statusVocabulary.find? (fun st => strIncludes (jsToLower text) st) with
  | some st => st
  | none => "optimal"

/-! ## Orchestrator `analyzeSalesQuantity` (lines 229–291)

The cache file maps digest keys to previously stored results; the digest
`getCacheKey('salesQuantity', salesData.slice(-days))` is modeled by the
(prefix, input-slice) pair itself. -/

/-- A cache key: the digest prefix together with the serialized input
slice it hashes. -/
abbrev SQKey := String × List SalesData

/-- The JSON cache file contents, restricted to `salesQuantity` entries. -/
abbrev SQCache := SQKey → Option SalesQuantityResult

/-- The empty cache file. -/
def emptyCache : SQCache := fun _ => none

/-- `getCacheKey(prefix, data)`. -/
def getCacheKey (pre : String) (data : List SalesData) : SQKey := (pre, data)

/-- `cache[cacheKey] = v; saveCache(cache)`. -/
def cacheSet (c : SQCache) (k : SQKey) (v : SalesQuantityResult) : SQCache :=
  fun k2 => if k2 = k then some v else c k2

/-- Everything observable about one `analyzeSalesQuantity` call: the value
returned, the cache file afterwards, the rate-limit store afterwards, and
how many times the Gemini operation was invoked. -/
structure SQOutcome where
  result : SalesQuantityResult
  cache : SQCache
  rateStore : Store
  aiCalls : ℕ

/-- `analyzeSalesQuantity(salesData, days = 30)`.

External collaborators are opaque parameters:
* `parseJSON` models `JSON.parse(response)` followed by the field
  defaulting of lines 263–267 (`parsed.prediction || 0`, …): `none` when
  `JSON.parse` throws;
* `extractNum` / `extractFacts` model the regex helpers `extractNumber` /
  `extractFactors`;
* `aiOp` models the closure `async () => model.generateContent(prompt)`
  handed to `retryWithBackoff`, indexed by invocation number.

The clock (`now`) and calendar month feed `checkRateLimit` and the
fallback model. -/
def analyzeSalesQuantity (parseJSON : String → Option SalesQuantityResult)
    (extractNum : String → String → Option ℚ)
    (extractFacts : String → List String)
    (aiOp : ℕ → Except JsError String)
    (salesData : List SalesData) (days : ℕ) (now month : ℕ)
    (cache : SQCache) (rateStore : Store) : SQOutcome :=
  let cacheKey := getCacheKey "salesQuantity" (sliceLast days salesData)
  match cache cacheKey with
  | some v => ⟨v, cache, rateStore, 0⟩
  | none =>
    let rateCheck := checkRateLimit now "sales_analysis" rateStore
    if rateCheck.1 = false then
      ⟨(generateFallbackAnalytics month salesData []).salesQuantity,
        cache, rateCheck.2, 0⟩
    else
      let trace := retryWithBackoff aiOp 3
      match trace.outcome with
      | .error _ =>
        ⟨(generateFallbackAnalytics month salesData []).salesQuantity,
          cache, rateCheck.2, trace.calls⟩
      | .ok response =>
        match parseJSON response with
        | some finalResult =>
          ⟨finalResult, cacheSet cache cacheKey finalResult,
            rateCheck.2, trace.calls⟩
        | none =>
          let fallbackParsed : SalesQuantityResult :=
            { prediction := (extractNum response "prediction").getD 0
              confidence := (extractNum response "confidence").getD 75
              factors := extractFacts response }
          ⟨fallbackParsed, cacheSet cache cacheKey fallbackParsed,
            rateCheck.2, trace.calls⟩

/-! ## Concrete inputs used by scenario theorems and witnesses -/

/-- A sales row carrying just a quantity. -/
def qRow (n : ℚ) : SalesData := { date := "d", quantity := some n }

/-- Inventory input exercising the unguarded division: stock 10, reorder
level 0 gives status `overstocked` while `avgDailySales = 0`. -/
def c1Inv : List InventoryData :=
  [{ current_stock := some 10, reorder_level := some 0 }]

/-- One sale of quantity 5 (makes `avgDailySales = 5`). -/
def c1Sales : List SalesData := [qRow 5]

/-- Seven sales with quantities 10,10,10,10,20,20,20. -/
def c7Sales : List SalesData :=
  [qRow 10, qRow 10, qRow 10, qRow 10, qRow 20, qRow 20, qRow 20]

/-- One inventory record with stock 1000 and reorder level 2000. -/
def c8Inv : List InventoryData :=
  [{ current_stock := some 1000, reorder_level := some 2000 }]

/-- A pre-stored analysis result. -/
def c5Result : SalesQuantityResult := ⟨42, 90, ["cached factor"]⟩

/-- A cache already holding `c5Result` under the key of the empty input. -/
def c5Cache : SQCache :=
  cacheSet emptyCache (getCacheKey "salesQuantity" []) c5Result

/-- A rate store whose `sales_analysis` bucket is saturated (count 45,
window open until time 10). -/
def c6DeniedStore : Store := storeSet emptyStore "sales_analysis" ⟨45, 10⟩

/-! ## Claim C1 — totality and division guards of the fallback model -/

/-- Claim C1 counterexample: with no sales and one inventory record of
stock 10 / reorder level 0, the status is `overstocked` and
`getStockRecommendation` divides `currentStock / avgDailySales = 10 / 0`;
the resulting recommendation field carries the literal Infinity artifact,
so not every division of the fallback path is guarded by `max(1, ...)`. -/
theorem fallback_infinity_artifact :
    (generateFallbackAnalytics 0 [] c1Inv).stockLevels.recommendation
      = "Consider reducing future orders. Stock level is Infinityx daily sales." ∧
    strIncludes ((generateFallbackAnalytics 0 [] c1Inv).stockLevels.recommendation)
      "Infinity" = true := by
  have hs : stockStatusOf c1Inv = StockStatus.overstocked := by
    norm_num [stockStatusOf, stockRatioOf, currentStockOf, avgReorderLevelOf, c1Inv, max_def]
  have ha : avgDailySalesOf [] = 0 := by
    norm_num [avgDailySalesOf, recentSalesOf, sliceLast, max_def]
  have hc : currentStockOf c1Inv = 10 := by norm_num [currentStockOf, c1Inv]
  have hrec : (generateFallbackAnalytics 0 [] c1Inv).stockLevels.recommendation
      = "Consider reducing future orders. Stock level is Infinityx daily sales." := by
    show getStockRecommendation (stockStatusOf c1Inv) (currentStockOf c1Inv)
      (avgDailySalesOf []) = _
    rw [hs, hc, ha]
    show "Consider reducing future orders. Stock level is " ++
      jnumToString (jsRoundJ (jsDivJ 10 0)) ++ "x daily sales." = _
    norm_num [jsDivJ, jsRoundJ, jnumToString]
    decide
  exact ⟨hrec, by rw [hrec]; decide⟩

/-- Claim C1 (amended): `generateFallbackAnalytics` is total, and every
division it performs clamps its denominator with `max(1, _)` — hence the
denominator is at least 1 — except the display ratio
`currentStock / avgDailySales` in the `overstocked` branch of
`getStockRecommendation`; that one ratio is finite whenever
`avgDailySales` is nonzero. -/
theorem fallback_division_guards (salesData : List SalesData)
    (inventoryData : List InventoryData)
    (h : avgDailySalesOf salesData ≠ 0) :
    (1 : ℚ) ≤ max 1 ((recentSalesOf salesData).length : ℚ) ∧
    (1 : ℚ) ≤ max 1 ((firstHalfOf salesData).length : ℚ) ∧
    (1 : ℚ) ≤ max 1 ((secondHalfOf salesData).length : ℚ) ∧
    (1 : ℚ) ≤ max 1 ((inventoryData.length : ℚ)) ∧
    (1 : ℚ) ≤ max 1 (avgReorderLevelOf inventoryData) ∧
    (1 : ℚ) ≤ max 1 (avgDailySalesOf salesData) ∧
    jnumIsFinite (jsRoundJ (jsDivJ (currentStockOf inventoryData)
      (avgDailySalesOf salesData))) = true := by
  refine ⟨le_max_left _ _, le_max_left _ _, le_max_left _ _, le_max_left _ _,
    le_max_left _ _, le_max_left _ _, ?_⟩
  simp [jsDivJ, h, jsRoundJ, jnumIsFinite]

/-- Claim C1 witness: the amended statement at a concrete input where
`avgDailySales = 5`. -/
theorem fallback_division_guards_witness :
    (1 : ℚ) ≤ max 1 ((recentSalesOf c1Sales).length : ℚ) ∧
    (1 : ℚ) ≤ max 1 ((firstHalfOf c1Sales).length : ℚ) ∧
    (1 : ℚ) ≤ max 1 ((secondHalfOf c1Sales).length : ℚ) ∧
    (1 : ℚ) ≤ max 1 ((c1Inv.length : ℚ)) ∧
    (1 : ℚ) ≤ max 1 (avgReorderLevelOf c1Inv) ∧
    (1 : ℚ) ≤ max 1 (avgDailySalesOf c1Sales) ∧
    jnumIsFinite (jsRoundJ (jsDivJ (currentStockOf c1Inv)
      (avgDailySalesOf c1Sales))) = true :=
  fallback_division_guards c1Sales c1Inv
    (by norm_num [avgDailySalesOf, recentSalesOf, sliceLast, c1Sales, qRow, max_def])

/-! ## Claim C2 — retry with backoff under persistent rate limiting -/

/-- Helper: the full trace of `retryWithBackoff` under an always-429
operation: four invocations, sleeps 30s, 60s, 60s, and the final 429
error rethrown. -/
theorem retry429_trace (α : Type) (op : ℕ → Except JsError α)
    (h : ∀ n, op n = .error (.httpStatus 429)) :
    retryWithBackoff op 3
      = ⟨.error (.httpStatus 429), 4, [30000, 60000, 60000]⟩ := by
  have e0 := h 0; have e1 := h 1; have e2 := h 2; have e3 := h 3
  simp [retryWithBackoff, retryLoop, e0, e1, e2, e3, isRateLimited, retryDelay]

/-- Helper: a first-attempt error that is not rate-limited propagates at
once, with one invocation and no sleep. -/
theorem retryNonRate_trace (α : Type) (op : ℕ → Except JsError α)
    (e : JsError) (h0 : op 0 = .error e) (hrl : isRateLimited e = false) :
    retryWithBackoff op 3 = ⟨.error e, 1, []⟩ := by
  simp [retryWithBackoff, retryLoop, h0, hrl]

/-- Claim C2 counterexample: after exhausting retries the failure is the
rate-limited error itself (`status: 429`), not the
`Error("Max retries exceeded")` RetriesExhausted error, which is dead
code. -/
theorem retryWithBackoff_rethrows_429 :
    (retryWithBackoff (fun _ => Except.error (JsError.httpStatus 429)) 3
        : RetryTrace ℕ).outcome = Except.error (JsError.httpStatus 429) ∧
    (retryWithBackoff (fun _ => Except.error (JsError.httpStatus 429)) 3
        : RetryTrace ℕ).outcome
      ≠ Except.error (JsError.message "Max retries exceeded") := by
  rw [retry429_trace ℕ _ (fun _ => rfl)]
  exact ⟨rfl, by simp⟩

/-- Claim C2 (amended): with `maxRetries = 3` an always-rate-limited
operation is invoked exactly 4 times with sleeps
`min(30000 * 2 ^ attempt, 60000)` = 30s, 60s, 60s (150s total) before the
retries, and the run fails by rethrowing the final 429 error; an error not
classified as rate-limited propagates immediately after a single
invocation with no sleep. -/
theorem retryWithBackoff_behavior (α : Type) :
    (∀ (op : ℕ → Except JsError α), (∀ n, op n = .error (.httpStatus 429)) →
      (retryWithBackoff op 3).calls = 4 ∧
      (retryWithBackoff op 3).delays = [30000, 60000, 60000] ∧
      (retryWithBackoff op 3).delays.sum = 150000 ∧
      (retryWithBackoff op 3).outcome = .error (.httpStatus 429)) ∧
    (∀ (op : ℕ → Except JsError α) (e : JsError), op 0 = .error e →
      isRateLimited e = false →
      retryWithBackoff op 3 = ⟨.error e, 1, []⟩) := by
  constructor
  · intro op h
    rw [retry429_trace α op h]
    refine ⟨rfl, rfl, ?_, rfl⟩
    show ([30000, 60000, 60000] : List ℕ).sum = 150000
    decide
  · intro op e h0 hrl
    exact retryNonRate_trace α op e h0 hrl

/-- Claim C2 witness: the amended statement at two concrete stub
operations. -/
theorem retryWithBackoff_behavior_witness :
    ((retryWithBackoff (fun _ => Except.error (JsError.httpStatus 429)) 3
        : RetryTrace ℕ).calls = 4 ∧
     (retryWithBackoff (fun _ => Except.error (JsError.httpStatus 429)) 3
        : RetryTrace ℕ).delays = [30000, 60000, 60000] ∧
     (retryWithBackoff (fun _ => Except.error (JsError.httpStatus 429)) 3
        : RetryTrace ℕ).delays.sum = 150000 ∧
     (retryWithBackoff (fun _ => Except.error (JsError.httpStatus 429)) 3
        : RetryTrace ℕ).outcome = .error (.httpStatus 429)) ∧
    (retryWithBackoff (fun _ => Except.error (JsError.message "boom")) 3
        : RetryTrace ℕ) = ⟨.error (.message "boom"), 1, []⟩ :=
  ⟨(retryWithBackoff_behavior ℕ).1 _ (fun _ => rfl),
   (retryWithBackoff_behavior ℕ).2 _ _ rfl rfl⟩

/-! ## Claim C3 — rate-limit window scenario -/

/-- Helper: while the clock stays at or before the window reset time and
the count has room below the ceiling, every call in a sequence is admitted
and the stored count advances by the number of calls. -/
theorem runChecks_within (key : String) :
    ∀ (ts : List ℕ) (s : Store) (c r : ℕ),
      s key = some ⟨c, r⟩ → (∀ t ∈ ts, t ≤ r) → c + ts.length ≤ 45 →
      (runChecks key ts s).1 = List.replicate ts.length true ∧
      (runChecks key ts s).2 key = some ⟨c + ts.length, r⟩ := by
  intro ts
  induction ts with
  | nil => intro s c r hs _ _; simpa [runChecks] using hs
  | cons t ts ih =>
    intro s c r hs hts hle
    have ht : t ≤ r := hts t (by simp)
    have h1 : ¬ (t > r) := by omega
    have h2 : ¬ (c ≥ maxRequestsPerHour) := by
      simp only [maxRequestsPerHour]; simp at hle ⊢; omega
    have hcheck : checkRateLimit t key s = (true, storeSet s key ⟨c + 1, r⟩) := by
      simp [checkRateLimit, hs, h1, h2]
    have hset : (storeSet s key ⟨c + 1, r⟩) key = some ⟨c + 1, r⟩ := by
      simp [storeSet]
    obtain ⟨ih1, ih2⟩ := ih (storeSet s key ⟨c + 1, r⟩) (c + 1) r hset
      (fun t2 ht2 => hts t2 (by simp [ht2])) (by simp at hle ⊢; omega)
    refine ⟨by simp [runChecks, hcheck, ih1, List.replicate_succ], ?_⟩
    simp only [runChecks, hcheck, List.length_cons]
    rw [ih2]
    have hn : c + 1 + ts.length = c + (ts.length + 1) := by omega
    rw [hn]

/-- Claim C3: from the empty store, the first call (at `t0`) on a bucket
is admitted and opens a window until `t0 + requestWindow`; 44 further
calls inside the window are all admitted (45 admissions total); a 46th
call inside the window is denied; a call strictly after the reset time is
admitted again and stores a fresh window with count 1. -/
theorem checkRateLimit_window_scenario (key : String) (t0 : ℕ) (ts : List ℕ)
    (t46 t47 : ℕ)
    (hlen : ts.length = 44)
    (hts : ∀ t ∈ ts, t ≤ t0 + requestWindow)
    (h46 : t46 ≤ t0 + requestWindow)
    (h47 : t0 + requestWindow < t47) :
    (checkRateLimit t0 key emptyStore).1 = true ∧
    (runChecks key ts (checkRateLimit t0 key emptyStore).2).1
      = List.replicate 44 true ∧
    (checkRateLimit t46 key
      (runChecks key ts (checkRateLimit t0 key emptyStore).2).2).1 = false ∧
    (checkRateLimit t47 key
      (checkRateLimit t46 key
        (runChecks key ts (checkRateLimit t0 key emptyStore).2).2).2).1 = true ∧
    (checkRateLimit t47 key
      (checkRateLimit t46 key
        (runChecks key ts (checkRateLimit t0 key emptyStore).2).2).2).2 key
      = some ⟨1, t47 + requestWindow⟩ := by
  have hfirst : checkRateLimit t0 key emptyStore
      = (true, storeSet emptyStore key ⟨1, t0 + requestWindow⟩) := by
    simp [checkRateLimit, emptyStore]
  have hset1 : (storeSet emptyStore key ⟨1, t0 + requestWindow⟩) key
      = some ⟨1, t0 + requestWindow⟩ := by simp [storeSet]
  obtain ⟨hrun1, hrun2⟩ := runChecks_within key ts
    (storeSet emptyStore key ⟨1, t0 + requestWindow⟩) 1 (t0 + requestWindow)
    hset1 hts (by omega)
  rw [hlen] at hrun1 hrun2
  have e2 : (checkRateLimit t0 key emptyStore).2
      = storeSet emptyStore key ⟨1, t0 + requestWindow⟩ := by rw [hfirst]
  have h46c : checkRateLimit t46 key
      (runChecks key ts (storeSet emptyStore key ⟨1, t0 + requestWindow⟩)).2
      = (false,
         (runChecks key ts (storeSet emptyStore key ⟨1, t0 + requestWindow⟩)).2) := by
    have hnot : ¬ (t46 > t0 + requestWindow) := by omega
    simp [checkRateLimit, hrun2, hnot, maxRequestsPerHour]
  have h47c : checkRateLimit t47 key
      (runChecks key ts (storeSet emptyStore key ⟨1, t0 + requestWindow⟩)).2
      = (true, storeSet
          (runChecks key ts (storeSet emptyStore key ⟨1, t0 + requestWindow⟩)).2
          key ⟨1, t47 + requestWindow⟩) := by
    simp [checkRateLimit, hrun2, h47]
  refine ⟨by rw [hfirst], ?_, ?_, ?_, ?_⟩
  · rw [e2]; exact hrun1
  · rw [e2, h46c]
  · rw [e2, h46c]
    show (checkRateLimit t47 key
      (runChecks key ts (storeSet emptyStore key ⟨1, t0 + requestWindow⟩)).2).1 = true
    rw [h47c]
  · rw [e2, h46c]
    show (checkRateLimit t47 key
      (runChecks key ts (storeSet emptyStore key ⟨1, t0 + requestWindow⟩)).2).2 key
      = some ⟨1, t47 + requestWindow⟩
    rw [h47c]
    simp [storeSet]

/-- Claim C3 witness: the scenario run concretely — 45 calls at time 0,
a 46th at time 0, and a 47th at time 3600001 (just past the one-hour
window). -/
theorem checkRateLimit_window_scenario_witness :
    (checkRateLimit 0 "gemini_api" emptyStore).1 = true ∧
    (runChecks "gemini_api" (List.replicate 44 0)
      (checkRateLimit 0 "gemini_api" emptyStore).2).1 = List.replicate 44 true ∧
    (checkRateLimit 0 "gemini_api"
      (runChecks "gemini_api" (List.replicate 44 0)
        (checkRateLimit 0 "gemini_api" emptyStore).2).2).1 = false ∧
    (checkRateLimit 3600001 "gemini_api"
      (checkRateLimit 0 "gemini_api"
        (runChecks "gemini_api" (List.replicate 44 0)
          (checkRateLimit 0 "gemini_api" emptyStore).2).2).2).1 = true ∧
    (checkRateLimit 3600001 "gemini_api"
      (checkRateLimit 0 "gemini_api"
        (runChecks "gemini_api" (List.replicate 44 0)
          (checkRateLimit 0 "gemini_api" emptyStore).2).2).2).2 "gemini_api"
      = some ⟨1, 3600001 + requestWindow⟩ :=
  checkRateLimit_window_scenario "gemini_api" 0 (List.replicate 44 0) 0 3600001
    (by decide) (by decide) (by decide) (by decide)

/-! ## Claim C4 — the stored count never exceeds the ceiling -/

/-- Helper: one `checkRateLimit` call preserves the per-bucket count
ceiling of 45. -/
theorem checkRateLimit_preserves (now : ℕ) (key : String) (s : Store)
    (hinv : ∀ k w, s k = some w → w.count ≤ 45) :
    ∀ k w, (checkRateLimit now key s).2 k = some w → w.count ≤ 45 := by
  intro k w h
  unfold checkRateLimit at h
  split at h
  case h_1 =>
    simp only [storeSet] at h
    by_cases hk : k = key
    · rw [if_pos hk] at h
      cases Option.some.inj h
      show (1 : ℕ) ≤ 45
      omega
    · rw [if_neg hk] at h
      exact hinv k w h
  case h_2 record heq =>
    have hrec : record.count ≤ 45 := hinv key record heq
    split at h
    · simp only [storeSet] at h
      by_cases hk : k = key
      · rw [if_pos hk] at h
        cases Option.some.inj h
        show (1 : ℕ) ≤ 45
        omega
      · rw [if_neg hk] at h
        exact hinv k w h
    · split at h
      · exact hinv k w h
      · rename_i h2
        simp only [storeSet] at h
        simp only [maxRequestsPerHour] at h2
        by_cases hk : k = key
        · rw [if_pos hk] at h
          cases Option.some.inj h
          show record.count + 1 ≤ 45
          omega
        · rw [if_neg hk] at h
          exact hinv k w h

/-- Helper: any sequence of calls starting from a store satisfying the
ceiling leaves a store satisfying the ceiling. -/
theorem runRate_preserves :
    ∀ (calls : List (ℕ × String)) (s : Store),
      (∀ k w, s k = some w → w.count ≤ 45) →
      ∀ k w, runRate calls s k = some w → w.count ≤ 45 := by
  intro calls
  induction calls with
  | nil => intro s hinv k w h; exact hinv k w h
  | cons c cs ih =>
    intro s hinv k w h
    exact ih (checkRateLimit c.1 c.2 s).2
      (checkRateLimit_preserves c.1 c.2 s hinv) k w h

/-- Claim C4: every `checkRateLimit` call preserves the invariant that no
stored bucket count exceeds `MAX_PER_WINDOW = 45`, and consequently every
store reachable from the empty store by any call sequence (any keys, any
clock values) has count at most 45 in every bucket. -/
theorem checkRateLimit_count_invariant :
    (∀ (now : ℕ) (key : String) (s : Store),
      (∀ k w, s k = some w → w.count ≤ 45) →
      ∀ k w, (checkRateLimit now key s).2 k = some w → w.count ≤ 45) ∧
    (∀ (calls : List (ℕ × String)) (k : String) (w : RateWindow),
      runRate calls emptyStore k = some w → w.count ≤ 45) :=
  ⟨checkRateLimit_preserves,
   fun calls k w h =>
     runRate_preserves calls emptyStore
       (fun _ _ hw => by simp [emptyStore] at hw) k w h⟩

/-- Claim C4 witness: the reachable-state bound applied after one concrete
call. -/
theorem checkRateLimit_count_invariant_witness :
    (⟨1, requestWindow⟩ : RateWindow).count ≤ 45 :=
  checkRateLimit_count_invariant.2 [(0, "gemini_api")] "gemini_api"
    ⟨1, requestWindow⟩ (by decide)

/-! ## Claim C5 — cache hit short-circuits -/

/-- Claim C5: when the cache already maps the key computed for
(`salesQuantity`, last-`days` slice) to `v`, `analyzeSalesQuantity`
returns `v` with the cache and rate store unchanged and zero invocations
of the AI operation — the rate limiter, retry machinery and fallback model
are never consulted. -/
theorem analyzeSalesQuantity_cache_hit
    (parseJSON : String → Option SalesQuantityResult)
    (extractNum : String → String → Option ℚ)
    (extractFacts : String → List String)
    (aiOp : ℕ → Except JsError String)
    (salesData : List SalesData) (days now month : ℕ)
    (cache : SQCache) (rateStore : Store) (v : SalesQuantityResult)
    (h : cache (getCacheKey "salesQuantity" (sliceLast days salesData)) = some v) :
    analyzeSalesQuantity parseJSON extractNum extractFacts aiOp salesData days
      now month cache rateStore = ⟨v, cache, rateStore, 0⟩ := by
  simp [analyzeSalesQuantity, h]

/-- Claim C5 witness: a concrete pre-populated cache entry is returned
as-is with no AI call. -/
theorem analyzeSalesQuantity_cache_hit_witness :
    analyzeSalesQuantity (fun _ => none) (fun _ _ => none) (fun _ => [])
      (fun _ => Except.error (JsError.httpStatus 429)) [] 30 0 0
      c5Cache emptyStore = ⟨c5Result, c5Cache, emptyStore, 0⟩ :=
  analyzeSalesQuantity_cache_hit (fun _ => none) (fun _ _ => none) (fun _ => [])
    (fun _ => Except.error (JsError.httpStatus 429)) [] 30 0 0
    c5Cache emptyStore c5Result (by decide)

/-! ## Claim C6 — fallback results are never cached -/

/-- Claim C6: on a cache miss, both when the rate limiter denies the
`sales_analysis` bucket (zero AI invocations) and when the retried AI
attempt ends in any error, `analyzeSalesQuantity` returns the
`salesQuantity` slice of `generateFallbackAnalytics` (computed with empty
inventory) and leaves the cache exactly as it was — no cache write. -/
theorem analyzeSalesQuantity_fallback_not_cached
    (parseJSON : String → Option SalesQuantityResult)
    (extractNum : String → String → Option ℚ)
    (extractFacts : String → List String)
    (aiOp : ℕ → Except JsError String)
    (salesData : List SalesData) (days now month : ℕ)
    (cache : SQCache) (rateStore : Store)
    (hmiss : cache (getCacheKey "salesQuantity" (sliceLast days salesData)) = none) :
    ((checkRateLimit now "sales_analysis" rateStore).1 = false →
      (analyzeSalesQuantity parseJSON extractNum extractFacts aiOp salesData days
        now month cache rateStore).result
          = (generateFallbackAnalytics month salesData []).salesQuantity ∧
      (analyzeSalesQuantity parseJSON extractNum extractFacts aiOp salesData days
        now month cache rateStore).cache = cache ∧
      (analyzeSalesQuantity parseJSON extractNum extractFacts aiOp salesData days
        now month cache rateStore).aiCalls = 0) ∧
    (∀ e : JsError, (checkRateLimit now "sales_analysis" rateStore).1 = true →
      (retryWithBackoff aiOp 3).outcome = Except.error e →
      (analyzeSalesQuantity parseJSON extractNum extractFacts aiOp salesData days
        now month cache rateStore).result
          = (generateFallbackAnalytics month salesData []).salesQuantity ∧
      (analyzeSalesQuantity parseJSON extractNum extractFacts aiOp salesData days
        now month cache rateStore).cache = cache) := by
  constructor
  · intro hdeny
    refine ⟨?_, ?_, ?_⟩ <;> simp [analyzeSalesQuantity, hmiss, hdeny]
  · intro e hallow herr
    refine ⟨?_, ?_⟩ <;> simp [analyzeSalesQuantity, hmiss, hallow, herr]

/-- Claim C6 witness: concretely, a saturated bucket and a failing AI stub
both yield the fallback slice with the cache untouched. -/
theorem analyzeSalesQuantity_fallback_not_cached_witness :
    ((analyzeSalesQuantity (fun _ => none) (fun _ _ => none) (fun _ => [])
        (fun _ => Except.error (JsError.message "boom")) [] 30 5 0
        emptyCache c6DeniedStore).result
          = (generateFallbackAnalytics 0 [] []).salesQuantity ∧
      (analyzeSalesQuantity (fun _ => none) (fun _ _ => none) (fun _ => [])
        (fun _ => Except.error (JsError.message "boom")) [] 30 5 0
        emptyCache c6DeniedStore).cache = emptyCache ∧
      (analyzeSalesQuantity (fun _ => none) (fun _ _ => none) (fun _ => [])
        (fun _ => Except.error (JsError.message "boom")) [] 30 5 0
        emptyCache c6DeniedStore).aiCalls = 0) ∧
    ((analyzeSalesQuantity (fun _ => none) (fun _ _ => none) (fun _ => [])
        (fun _ => Except.error (JsError.message "boom")) [] 30 5 0
        emptyCache emptyStore).result
          = (generateFallbackAnalytics 0 [] []).salesQuantity ∧
      (analyzeSalesQuantity (fun _ => none) (fun _ _ => none) (fun _ => [])
        (fun _ => Except.error (JsError.message "boom")) [] 30 5 0
        emptyCache emptyStore).cache = emptyCache) :=
  ⟨(analyzeSalesQuantity_fallback_not_cached (fun _ => none) (fun _ _ => none)
      (fun _ => []) (fun _ => Except.error (JsError.message "boom")) [] 30 5 0
      emptyCache c6DeniedStore rfl).1 (by decide),
   (analyzeSalesQuantity_fallback_not_cached (fun _ => none) (fun _ _ => none)
      (fun _ => []) (fun _ => Except.error (JsError.message "boom")) [] 30 5 0
      emptyCache emptyStore rfl).2 (JsError.message "boom") (by decide) (by decide)⟩

/-! ## Claim C7 — increasing-trend scenario -/

/-- Claim C7: for the seven quantities 10,10,10,10,20,20,20 (and any
inventory input and calendar month) the fallback trend is `increasing`:
the last-7 window splits by index into halves of 3 and 4 records and the
second-half mean (17.5) exceeds 1.1 times the first-half mean (10). -/
theorem fallback_trend_increasing (month : ℕ) (inventoryData : List InventoryData) :
    (generateFallbackAnalytics month c7Sales inventoryData).salesVolume.trend
      = Trend.increasing ∧
    secondHalfAvgOf c7Sales > firstHalfAvgOf c7Sales * 1.1 := by
  constructor
  · show trendDirectionOf c7Sales = Trend.increasing
    norm_num [trendDirectionOf, secondHalfAvgOf, secondHalfOf, firstHalfAvgOf, firstHalfOf,
      recentSalesOf, sliceLast, c7Sales, qRow, max_def]
  · norm_num [secondHalfAvgOf, secondHalfOf, firstHalfAvgOf, firstHalfOf,
      recentSalesOf, sliceLast, c7Sales, qRow, max_def]

/-! ## Claim C8 — boundary inclusivity of the stock-status bands -/

/-- Claim C8: whenever the total current stock is 1000 and the average
reorder level is 2000 the stock ratio is exactly 0.5, which fails the
strict `ratio < 0.5` check for `critical` and lands in `low`. -/
theorem fallback_stock_ratio_boundary (month : ℕ) (salesData : List SalesData)
    (inventoryData : List InventoryData)
    (h1 : currentStockOf inventoryData = 1000)
    (h2 : avgReorderLevelOf inventoryData = 2000) :
    stockRatioOf inventoryData = 1/2 ∧
    ¬ stockRatioOf inventoryData < (0.5 : ℚ) ∧
    (generateFallbackAnalytics month salesData inventoryData).stockLevels.status
      = StockStatus.low := by
  have hr : stockRatioOf inventoryData = 1/2 := by
    rw [stockRatioOf, h1, h2]; norm_num [max_def]
  refine ⟨hr, by rw [hr]; norm_num, ?_⟩
  show stockStatusOf inventoryData = StockStatus.low
  unfold stockStatusOf
  rw [hr]; norm_num

/-- Claim C8 witness: one inventory record with stock 1000 and reorder
level 2000. -/
theorem fallback_stock_ratio_boundary_witness :
    stockRatioOf c8Inv = 1/2 ∧
    ¬ stockRatioOf c8Inv < (0.5 : ℚ) ∧
    (generateFallbackAnalytics 0 [] c8Inv).stockLevels.status = StockStatus.low :=
  fallback_stock_ratio_boundary 0 [] c8Inv
    (by norm_num [currentStockOf, c8Inv])
    (by norm_num [avgReorderLevelOf, c8Inv, max_def])

/-! ## Claim C9 — empty inputs land in the highest stockout-risk band -/

/-- Claim C9: with empty sales and inventory, `daysUntilStockout` is
`0 / max(1, 0) = 0`, which falls in the under-7-days band, so the result
reports probability 80 and timeline "0 days", while the sales prediction
is 0 and the trend is `stable` (for every calendar month). -/
theorem fallback_empty_inputs (month : ℕ) :
    (generateFallbackAnalytics month [] []).stockoutRisk.probability = 80 ∧
    (generateFallbackAnalytics month [] []).stockoutRisk.timeline = "0 days" ∧
    (generateFallbackAnalytics month [] []).salesQuantity.prediction = 0 ∧
    (generateFallbackAnalytics month [] []).salesVolume.trend = Trend.stable ∧
    daysUntilStockoutOf [] [] = 0 := by
  have ha : avgDailySalesOf [] = 0 := by
    norm_num [avgDailySalesOf, recentSalesOf, sliceLast, max_def]
  have hd : daysUntilStockoutOf [] [] = 0 := by
    norm_num [daysUntilStockoutOf, currentStockOf, ha, max_def]
  have hri : jsRoundI 0 = 0 := by norm_num [jsRoundI]
  refine ⟨?_, ?_, ?_, ?_, hd⟩
  · show stockoutProbabilityOf [] [] = 80
    norm_num [stockoutProbabilityOf, hd]
  · show toString (jsRoundI (daysUntilStockoutOf [] [])) ++ " days" = "0 days"
    rw [hd, hri]; decide
  · show jsRound (avgDailySalesOf [] * 7) = 0
    rw [ha]; norm_num [jsRound, jsRoundI]
  · show trendDirectionOf [] = Trend.stable
    norm_num [trendDirectionOf, secondHalfAvgOf, secondHalfOf, firstHalfAvgOf, firstHalfOf,
      recentSalesOf, sliceLast, max_def]

/-! ## Claim C10 — extraction priority of `extractStatus` -/

/-- Claim C10: `extractStatus` scans `optimal, low, critical, overstocked`
in that order over the lowercased text: any text containing both
`optimal` and `critical` yields `optimal`, and any text containing none
of the four yields the default `optimal`. -/
theorem extractStatus_priority_default (t : String) :
    (strIncludes (jsToLower t) "optimal" = true ∧
       strIncludes (jsToLower t) "critical" = true →
      extractStatus t = "optimal") ∧
    ((∀ st ∈ statusVocabulary, strIncludes (jsToLower t) st = false) →
      extractStatus t = "optimal") := by
  constructor
  · rintro ⟨h1, _⟩
    simp [extractStatus, statusVocabulary, List.find?, h1]
  · intro h
    have h1 := h "optimal" (by simp [statusVocabulary])
    have h2 := h "low" (by simp [statusVocabulary])
    have h3 := h "critical" (by simp [statusVocabulary])
    have h4 := h "overstocked" (by simp [statusVocabulary])
    simp [extractStatus, statusVocabulary, List.find?, h1, h2, h3, h4]

/-- Claim C10 witness: both cases at concrete texts. -/
theorem extractStatus_priority_default_witness :
    extractStatus "both optimal and critical" = "optimal" ∧
    extractStatus "none of these" = "optimal" :=
  ⟨(extractStatus_priority_default "both optimal and critical").1 (by decide),
   (extractStatus_priority_default "none of these").2 (by decide)⟩

end AIAnalytics
